import Mathlib

/-!
Verification of the Leg Navigation & Turn Geometry Engine of the dcsplan
repository (packages/frontend/src/utils/legCalculations.ts and
packages/frontend/src/utils/flightPlanUtils.ts).

Modelling conventions:

* JavaScript numbers are modelled as real numbers (`ℝ`).  Division is the
  Lean-totalised real division.  `Math.round` is modelled as
  `⌊x + 1/2⌋` (round half towards positive infinity), `%` as the
  JavaScript truncated remainder, `Math.atan2` by an explicit case split
  on the signs of its arguments.
* `Math.asin` returns NaN outside `[-1, 1]`; where a claim is about that
  edge the model returns `Option ℝ` with `none` standing for NaN, and the
  NaN propagation through the heading chain of `calculateAllLegData` is
  threaded explicitly (`none` coordinates / bearings).
* The planar projection is third-party code (proj4 transverse Mercator,
  registered globally by the module); it is not part of this repository,
  so the projection and its inverse are taken as explicit function
  parameters `proj`/`unproj` of the definitions that use them.
* The two `throw` statements of `calculateStraighteningPoint` are
  modelled with `Except SPError`; `console.warn` calls are side effects
  with no bearing on the computed values and are not modelled.
-/

noncomputable section

/-- Truncation towards zero, the rounding used by the JavaScript `%`
operator. -/
def jsTrunc (x : ℝ) : ℝ := if 0 ≤ x then (⌊x⌋ : ℝ) else (⌈x⌉ : ℝ)

/-- JavaScript remainder operator `a % b` on numbers (sign follows the
dividend). -/
def jsMod (a b : ℝ) : ℝ := a - b * jsTrunc (a / b)

/-- JavaScript `Math.round`: round half towards positive infinity. -/
def jsRound (x : ℝ) : ℝ := (⌊x + 1 / 2⌋ : ℝ)

/-- JavaScript `Math.asin`: defined on `[-1, 1]`, NaN (modelled as
`none`) outside. -/
def jsAsin (x : ℝ) : Option ℝ := if |x| ≤ 1 then some (Real.arcsin x) else none

/-- JavaScript `Math.atan2 y x` (range `(-π, π]`, `atan2 0 0 = 0`). -/
def atan2 (y x : ℝ) : ℝ :=
  if 0 < x then Real.arctan (y / x)
  else if x < 0 then
    (if 0 ≤ y then Real.arctan (y / x) + Real.pi else Real.arctan (y / x) - Real.pi)
  else
    (if 0 < y then Real.pi / 2 else if y < 0 then -(Real.pi / 2) else 0)

/-- A single turn point (types/flightPlan.ts `FlightPlanTurnPoint`; the
optional display name is irrelevant to the computations). -/
structure FlightPlanTurnPoint where
  lat : ℝ
  lon : ℝ
  tas : ℝ
  alt : ℝ
  fuelFlow : ℝ
  windSpeed : ℝ
  windDir : ℝ

instance : Inhabited FlightPlanTurnPoint := ⟨⟨0, 0, 0, 0, 0, 0, 0⟩⟩

/-- The full flight plan (types/flightPlan.ts `FlightPlan`). -/
structure FlightPlan where
  points : List FlightPlanTurnPoint
  declination : ℝ
  bankAngle : ℝ
  initTimeSec : ℝ
  initFob : ℝ

/-- Per-leg data produced by `flightPlanUtils.calculateLegData`
(types/flightPlan.ts `LegData`).  `heading` is `none` when the
crosswind arcsine argument is out of `[-1, 1]` (JavaScript NaN). -/
structure LegData where
  course : ℝ
  distance : ℝ
  legFuel : ℝ
  heading : Option ℝ
  ete : ℝ
  eta : ℝ
  efr : ℝ

/-- Haversine great-circle distance in metres with Earth radius
6371000 m, exactly as inlined in `flightPlanUtils.calculateLegData`
(flightPlanUtils.ts lines 64-72); arguments in degrees. -/
def haversineDistance (lat1Deg lon1Deg lat2Deg lon2Deg : ℝ) : ℝ :=
  let lat1 := lat1Deg * Real.pi / 180
  let lon1 := lon1Deg * Real.pi / 180
  let lat2 := lat2Deg * Real.pi / 180
  let lon2 := lon2Deg * Real.pi / 180
  let dLat := lat2 - lat1
  let dLonRad := lon2 - lon1
  let a := Real.sin (dLat / 2) * Real.sin (dLat / 2) +
    Real.cos lat1 * Real.cos lat2 * Real.sin (dLonRad / 2) * Real.sin (dLonRad / 2)
  let c := 2 * atan2 (Real.sqrt a) (Real.sqrt (1 - a))
  6371000 * c

/-- Body of `flightPlanUtils.calculateLegData` for one leg, given the
seed time and fuel (`initTimeSec` / `initEfr` in the source).  Mirrors
flightPlanUtils.ts lines 46-101. -/
def mkLegData (fp : FlightPlan) (indexWptFrom : ℕ) (initTimeSec initEfr : ℝ) : LegData :=
  let originWpt := fp.points.getD indexWptFrom default
  let destinationWpt := fp.points.getD (indexWptFrom + 1) default
  let lat1 := originWpt.lat * Real.pi / 180
  let lon1 := originWpt.lon * Real.pi / 180
  let lat2 := destinationWpt.lat * Real.pi / 180
  let lon2 := destinationWpt.lon * Real.pi / 180
  let dLon := lon2 - lon1
  let y := Real.sin dLon * Real.cos lat2
  let x := Real.cos lat1 * Real.sin lat2 - Real.sin lat1 * Real.cos lat2 * Real.cos dLon
  let bearing := atan2 y x * 180 / Real.pi
  let course := jsMod (bearing + fp.declination + 360) 360
  let lengthMeters := haversineDistance originWpt.lat originWpt.lon
    destinationWpt.lat destinationWpt.lon
  let windAngleRad :=
    jsMod (jsMod (originWpt.windDir + 180) 360 - course + 360) 360 * (Real.pi / 180)
  let tailComponent := originWpt.windSpeed * Real.cos windAngleRad
  let crossComponent := originWpt.windSpeed * Real.sin windAngleRad
  let groundSpeed := originWpt.tas + tailComponent
  let ete := jsRound (lengthMeters / 1852 / (groundSpeed / 3600))
  let legFuel := ete * (originWpt.fuelFlow / 3600)
  let heading := (jsAsin (crossComponent / groundSpeed)).map (fun s =>
    let h := course - s * 180 / Real.pi
    if h < 0 then h + 360 else h)
  { course := course
    distance := lengthMeters / 1852
    legFuel := legFuel
    heading := heading
    ete := ete
    eta := initTimeSec + ete
    efr := initEfr - legFuel }

/-- `flightPlanUtils.calculateLegData` (flightPlanUtils.ts lines 46-102):
for `indexWptFrom > 0` the seeds come from the recursive call on the
previous index, for index 0 from the flight plan's initial time and
fuel. -/
def calculateLegData (fp : FlightPlan) : ℕ → LegData
  | 0 => mkLegData fp 0 fp.initTimeSec fp.initFob
  | n + 1 =>
    let prevData := calculateLegData fp n
    mkLegData fp (n + 1) prevData.eta prevData.efr

/-- Bearing between two points in degrees, in `[0, 360)`
(legCalculations.ts `calculateBearing`, lines 20-38). -/
def calculateBearing (lat1 lon1 lat2 lon2 : ℝ) : ℝ :=
  let lat1Rad := lat1 * Real.pi / 180
  let lon1Rad := lon1 * Real.pi / 180
  let lat2Rad := lat2 * Real.pi / 180
  let lon2Rad := lon2 * Real.pi / 180
  let dLon := lon2Rad - lon1Rad
  let y := Real.sin dLon * Real.cos lat2Rad
  let x := Real.cos lat1Rad * Real.sin lat2Rad -
    Real.sin lat1Rad * Real.cos lat2Rad * Real.cos dLon
  let bearing := atan2 y x * 180 / Real.pi
  jsMod (bearing + 360) 360

/-- Turn radius from TAS and bank angle (legCalculations.ts
`calculateTurnRadius`, lines 44-48).  Note the source converts knots to
m/s with the factor 0.514. -/
def calculateTurnRadius (tas bankAngleDeg : ℝ) : ℝ :=
  let tasMs := tas * 0.514
  let bankAngleRad := bankAngleDeg * Real.pi / 180
  (tasMs * tasMs) / (9.80665 * Real.tan bankAngleRad)

/-- Turn direction computed by `calculateStraighteningPoint`
(legCalculations.ts lines 92-93): `1` when the angular difference from
the inbound bearing to the approximate outbound bearing, mod 360,
exceeds 180, else `-1`.  The source's own comments (lines 160-161)
identify `1` with counter-clockwise and `-1` with clockwise. -/
def spTurnDir (inboundBearing aproxOutboundBearing : ℝ) : ℝ :=
  if 180 < jsMod (aproxOutboundBearing - inboundBearing + 360) 360 then 1 else -1

/-- Dot product between the arc tangent at a candidate intersection
point `p` (the centre-to-`p` radius vector rotated 90 degrees, CCW for
`td = 1`, CW otherwise) and the vector from `p` to the destination `d`
(legCalculations.ts lines 155-177). -/
def spDot (td : ℝ) (c d p : ℝ × ℝ) : ℝ :=
  let radiusX := p.1 - c.1
  let radiusY := p.2 - c.2
  let tangentX := if td = 1 then -radiusY else radiusY
  let tangentY := if td = 1 then radiusX else -radiusX
  tangentX * (d.1 - p.1) + tangentY * (d.2 - p.2)

/-- Root selection of `calculateStraighteningPoint` (legCalculations.ts
lines 179-202): take the first candidate with a positive tangent
alignment dot product; if neither is positive, take the one with the
larger dot product. -/
def spSelect (td : ℝ) (c d p1 p2 : ℝ × ℝ) : ℝ × ℝ :=
  if 0 < spDot td c d p1 then p1
  else if 0 < spDot td c d p2 then p2
  else if spDot td c d p2 < spDot td c d p1 then p1 else p2

/-- The two `throw` sites of `calculateStraighteningPoint`. -/
inductive SPError where
  | degenerateLine : SPError
  | lineTooFarFromCircle : SPError
  | noIntersection : SPError
deriving DecidableEq

/-- Return value of `calculateStraighteningPoint`: the tuple
`[turnCenterLat, turnCenterLon, straighteningLat, straighteningLon,
turnDirection]`. -/
structure SPResult where
  cLat : ℝ
  cLon : ℝ
  sLat : ℝ
  sLon : ℝ
  td : ℝ

/-- `calculateStraighteningPoint` (legCalculations.ts lines 74-207).
`proj lat lon` is the geographic-to-plane projection (the source's
`latLonToTransverseMercator`, external proj4 code) and `unproj x y` its
inverse; both are passed explicitly. -/
def calculateStraighteningPoint (proj unproj : ℝ → ℝ → ℝ × ℝ)
    (inboundBearing point1Lat point1Lon point2Lat point2Lon turnRadiusM : ℝ) :
    Except SPError SPResult :=
  let aproxOutboundBearing := calculateBearing point1Lat point1Lon point2Lat point2Lon
  let s := proj point1Lat point1Lon
  let d := proj point2Lat point2Lon
  let turnDirection := spTurnDir inboundBearing aproxOutboundBearing
  let cx := s.1 - turnDirection * Real.cos (inboundBearing * Real.pi / 180) * turnRadiusM
  let cy := s.2 + turnDirection * Real.sin (inboundBearing * Real.pi / 180) * turnRadiusM
  let cGeo := unproj cx cy
  let A := cx - d.1
  let B := cy - d.2
  let C := cx * cx + cy * cy - turnRadiusM * turnRadiusM - (d.1 * cx + d.2 * cy)
  if |B| < 1e-10 then
    if |A| < 1e-10 then .error .degenerateLine
    else
      let xLine := C / A
      let discriminant := turnRadiusM * turnRadiusM - (xLine - cx) * (xLine - cx)
      if discriminant < 0 then .error .lineTooFarFromCircle
      else
        let syResult := cy + turnDirection * Real.sqrt discriminant
        let sGeo := unproj xLine syResult
        .ok ⟨cGeo.1, cGeo.2, sGeo.1, sGeo.2, turnDirection⟩
  else
    let a := A * A + B * B
    let b := -2 * B * B * cx + 2 * A * (B * cy - C)
    let c := B * B * cx * cx + (C - B * cy) * (C - B * cy) -
      turnRadiusM * turnRadiusM * B * B
    let discriminant := b * b - 4 * a * c
    if discriminant < 0 then .error .noIntersection
    else
      let sqrtDisc := Real.sqrt discriminant
      let x1Intersect := (-b + sqrtDisc) / (2 * a)
      let y1Intersect := (C - A * x1Intersect) / B
      let x2Intersect := (-b - sqrtDisc) / (2 * a)
      let y2Intersect := (C - A * x2Intersect) / B
      let sel := spSelect turnDirection (cx, cy) d
        (x1Intersect, y1Intersect) (x2Intersect, y2Intersect)
      let sGeo := unproj sel.1 sel.2
      .ok ⟨cGeo.1, cGeo.2, sGeo.1, sGeo.2, turnDirection⟩

/-- `generateArcPoints` (legCalculations.ts lines 214-271): sample
`numPoints + 1` points along the arc about the projected centre, from
the start angle through the signed angular difference consistent with
the turn direction. -/
def generateArcPoints (proj unproj : ℝ → ℝ → ℝ × ℝ)
    (centerLat centerLon radiusM startLat startLon endLat endLon turnDirection : ℝ)
    (numPoints : ℕ) : List (ℝ × ℝ) :=
  let c := proj centerLat centerLon
  let s := proj startLat startLon
  let e := proj endLat endLon
  let startAngleRad :=
    let t := atan2 (s.2 - c.2) (s.1 - c.1)
    if t < 0 then t + 2 * Real.pi else t
  let endAngleRad :=
    let t := atan2 (e.2 - c.2) (e.1 - c.1)
    if t < 0 then t + 2 * Real.pi else t
  let angleDiff0 := endAngleRad - startAngleRad
  let angleDiff :=
    if turnDirection = 1 ∧ angleDiff0 < 0 then angleDiff0 + 2 * Real.pi
    else if turnDirection = -1 ∧ 0 < angleDiff0 then angleDiff0 - 2 * Real.pi
    else angleDiff0
  (List.range (numPoints + 1)).map (fun (i : ℕ) =>
    let t := (i : ℝ) / (numPoints : ℝ)
    let angle := startAngleRad + angleDiff * t
    unproj (c.1 + radiusM * Real.cos angle) (c.2 + radiusM * Real.sin angle))

/-- `calculateHeading` (legCalculations.ts lines 276-294).  `none`
models the NaN produced by `Math.asin` when the crosswind component
exceeds the ground speed in magnitude. -/
def calculateHeading (course windSpeed windDir tas : ℝ) : Option ℝ :=
  let windAngleRad := jsMod (jsMod (windDir + 180) 360 - course + 360) 360 * (Real.pi / 180)
  let tailComponent := windSpeed * Real.cos windAngleRad
  let crossComponent := windSpeed * Real.sin windAngleRad
  let groundSpeed := tas + tailComponent
  (jsAsin (crossComponent / groundSpeed)).map (fun s =>
    let heading := course - s * 180 / Real.pi
    jsMod (if heading < 0 then heading + 360 else heading) 360)

/-- Per-leg result of `calculateAllLegData` (legCalculations.ts
`LegCalculationResult`, lines 299-313).  Coordinate, bearing and heading
fields are `Option ℝ`, with `none` standing for a NaN produced upstream
(a NaN heading fed forward as the next inbound bearing contaminates the
following legs' geometry without ever raising). -/
structure LegCalculationResult where
  originLat : ℝ
  originLon : ℝ
  destinationLat : ℝ
  destinationLon : ℝ
  turnCenterLat : Option ℝ
  turnCenterLon : Option ℝ
  straighteningLat : Option ℝ
  straighteningLon : Option ℝ
  turnRadiusM : ℝ
  inboundBearing : Option ℝ
  outboundBearing : Option ℝ
  heading : Option ℝ
  turnDirection : ℝ

/-- One iteration of the `calculateAllLegData` loop (legCalculations.ts
lines 329-412).  `first` is `i == 0`; `inboundBearing` is the previous
leg's heading (`none` = NaN).  A NaN inbound bearing makes every
comparison in `calculateStraighteningPoint` false, so that call returns
NaN coordinates with turn direction `-1` and does not throw; the
fallback (catch) branch substitutes the origin and turn direction `1`. -/
def legStep (proj unproj : ℝ → ℝ → ℝ × ℝ) (fp : FlightPlan)
    (first : Bool) (inboundBearing : Option ℝ)
    (origin destination : FlightPlanTurnPoint) : LegCalculationResult :=
  let turnRadiusM := calculateTurnRadius destination.tas fp.bankAngle
  let geo : (Option ℝ × Option ℝ) × (Option ℝ × Option ℝ) × ℝ :=
    if first then
      ((some 0, some 0), (some origin.lat, some origin.lon), 1)
    else
      match inboundBearing with
      | none => ((none, none), (none, none), -1)
      | some ib =>
        match calculateStraighteningPoint proj unproj ib origin.lat origin.lon
            destination.lat destination.lon turnRadiusM with
        | .ok r => ((some r.cLat, some r.cLon), (some r.sLat, some r.sLon), r.td)
        | .error _ => ((some 0, some 0), (some origin.lat, some origin.lon), 1)
  let outboundBearing : Option ℝ :=
    match geo.2.1 with
    | (some sLat, some sLon) =>
      some (calculateBearing sLat sLon destination.lat destination.lon)
    | _ => none
  let course := outboundBearing.map (fun ob => jsMod (ob + fp.declination + 360) 360)
  let heading := course.bind (fun cs =>
    calculateHeading cs destination.windSpeed destination.windDir destination.tas)
  { originLat := origin.lat
    originLon := origin.lon
    destinationLat := destination.lat
    destinationLon := destination.lon
    turnCenterLat := geo.1.1
    turnCenterLon := geo.1.2
    straighteningLat := geo.2.1.1
    straighteningLon := geo.2.1.2
    turnRadiusM := turnRadiusM
    inboundBearing := if first then some 0 else inboundBearing
    outboundBearing := outboundBearing
    heading := heading
    turnDirection := geo.2.2 }

/-- The sequential loop of `calculateAllLegData`: each leg's heading
becomes the next leg's inbound bearing. -/
def calcLegsAux (proj unproj : ℝ → ℝ → ℝ × ℝ) (fp : FlightPlan) :
    Option ℝ → Bool → List FlightPlanTurnPoint → List LegCalculationResult
  | _, _, [] => []
  | _, _, [_] => []
  | inboundBearing, first, origin :: destination :: rest =>
    let r := legStep proj unproj fp first inboundBearing origin destination
    r :: calcLegsAux proj unproj fp r.heading false (destination :: rest)

/-- `calculateAllLegData` (legCalculations.ts lines 318-415).  The
source's early return for fewer than two points is subsumed by the
pattern match of `calcLegsAux`; the initial inbound bearing is 0 and the
first leg takes the `i == 0` branch. -/
def calculateAllLegData (proj unproj : ℝ → ℝ → ℝ × ℝ) (fp : FlightPlan) :
    List LegCalculationResult :=
  calcLegsAux proj unproj fp (some 0) true fp.points

/-- Identity projection, used to instantiate the external-projection
parameters at concrete inputs. -/
def idProj : ℝ → ℝ → ℝ × ℝ := fun lat lon => (lat, lon)

/-! Arithmetic helper lemmas for the JavaScript number operations. -/

lemma jsMod_of_nonneg_lt {a b : ℝ} (h0 : 0 ≤ a) (h1 : a < b) : jsMod a b = a := by
  have hb : 0 < b := lt_of_le_of_lt h0 h1
  have hdiv0 : 0 ≤ a / b := div_nonneg h0 hb.le
  have hdiv1 : a / b < 1 := (div_lt_one hb).mpr h1
  unfold jsMod jsTrunc
  rw [if_pos hdiv0, Int.floor_eq_zero_iff.mpr (Set.mem_Ico.mpr ⟨hdiv0, hdiv1⟩)]
  simp

lemma jsMod_of_le_lt {a b : ℝ} (hb : 0 < b) (h0 : b ≤ a) (h1 : a < 2 * b) :
    jsMod a b = a - b := by
  have hdiv0 : (0 : ℝ) ≤ a / b := div_nonneg (hb.le.trans h0) hb.le
  have hfloor : ⌊a / b⌋ = 1 := by
    refine Int.floor_eq_iff.mpr ⟨?_, ?_⟩
    · push_cast
      exact (le_div_iff₀ hb).mpr (by linarith)
    · push_cast
      exact (div_lt_iff₀ hb).mpr (by linarith)
  unfold jsMod jsTrunc
  rw [if_pos hdiv0, hfloor]
  push_cast
  ring

lemma jsRound_eq {x : ℝ} {n : ℤ} (h1 : (n : ℝ) ≤ x + 1 / 2) (h2 : x + 1 / 2 < n + 1) :
    jsRound x = n := by
  unfold jsRound
  rw [Int.floor_eq_iff.mpr ⟨h1, by exact_mod_cast h2⟩]

/-! Evaluation lemmas for `atan2`, bearings on the equator and a few
degree-argument trigonometric values, used to run the geometry on
concrete inputs. -/

lemma atan2_zero_of_neg {y : ℝ} (hy : y < 0) : atan2 y 0 = -(Real.pi / 2) := by
  unfold atan2
  rw [if_neg (lt_irrefl 0), if_neg (lt_irrefl 0), if_neg (not_lt.mpr hy.le), if_pos hy]

lemma atan2_zero_of_pos {y : ℝ} (hy : 0 < y) : atan2 y 0 = Real.pi / 2 := by
  unfold atan2
  rw [if_neg (lt_irrefl 0), if_neg (lt_irrefl 0), if_pos hy]

lemma atan2_of_pos_x {y x : ℝ} (hx : 0 < x) : atan2 y x = Real.arctan (y / x) := by
  unfold atan2
  rw [if_pos hx]

lemma cos_270deg : Real.cos (270 * Real.pi / 180) = 0 := by
  rw [show (270 : ℝ) * Real.pi / 180 = Real.pi + Real.pi / 2 by ring, Real.cos_add]
  simp

lemma sin_270deg : Real.sin (270 * Real.pi / 180) = -1 := by
  rw [show (270 : ℝ) * Real.pi / 180 = Real.pi + Real.pi / 2 by ring, Real.sin_add]
  simp

lemma cos_0deg : Real.cos (0 * Real.pi / 180) = 1 := by
  norm_num

lemma sin_0deg : Real.sin (0 * Real.pi / 180) = 0 := by
  norm_num

/-- Bearing between two equator points heading west (longitude strictly
decreasing by less than 180 degrees) is 270. -/
lemma calculateBearing_equator_west {a b : ℝ} (h1 : b < a) (h2 : a - b < 180) :
    calculateBearing 0 a 0 b = 270 := by
  have hpi := Real.pi_pos
  have hdneg : b * Real.pi / 180 - a * Real.pi / 180 < 0 := by nlinarith
  have hdgt : -Real.pi < b * Real.pi / 180 - a * Real.pi / 180 := by nlinarith
  have hs : Real.sin (b * Real.pi / 180 - a * Real.pi / 180) < 0 :=
    Real.sin_neg_of_neg_of_neg_pi_lt hdneg hdgt
  simp only [calculateBearing]
  norm_num
  rw [atan2_zero_of_neg hs,
    show -(Real.pi / 2) * 180 / Real.pi = -90 by
      field_simp
      ring,
    show (-90 : ℝ) + 360 = 270 by norm_num,
    jsMod_of_nonneg_lt (by norm_num) (by norm_num)]

/-- Bearing between two equator points heading east (longitude strictly
increasing by less than 180 degrees) is 90. -/
lemma calculateBearing_equator_east {a b : ℝ} (h1 : a < b) (h2 : b - a < 180) :
    calculateBearing 0 a 0 b = 90 := by
  have hpi := Real.pi_pos
  have hdpos : 0 < b * Real.pi / 180 - a * Real.pi / 180 := by nlinarith
  have hdlt : b * Real.pi / 180 - a * Real.pi / 180 < Real.pi := by nlinarith
  have hs : 0 < Real.sin (b * Real.pi / 180 - a * Real.pi / 180) :=
    Real.sin_pos_of_pos_of_lt_pi hdpos hdlt
  simp only [calculateBearing]
  norm_num
  rw [atan2_zero_of_pos hs,
    show Real.pi / 2 * 180 / Real.pi = 90 by
      field_simp
      ring,
    show (90 : ℝ) + 360 = 450 by norm_num,
    jsMod_of_le_lt (by norm_num) (by norm_num) (by norm_num)]
  norm_num

/-- A true airspeed whose computed turn radius at 45 degrees of bank is
exactly 4 metres (used to drive the turn geometry at exactly
representable numbers). -/
def tasStar : ℝ := Real.sqrt 39.2266 / 0.514

lemma calculateTurnRadius_tasStar : calculateTurnRadius tasStar 45 = 4 := by
  simp only [calculateTurnRadius, tasStar]
  rw [show (45 : ℝ) * Real.pi / 180 = Real.pi / 4 by ring, Real.tan_pi_div_four]
  rw [show Real.sqrt 39.2266 / 0.514 * 0.514 = Real.sqrt 39.2266 by ring]
  rw [Real.mul_self_sqrt (by norm_num)]
  norm_num

lemma spTurnDir_270_90 : spTurnDir 270 90 = -1 := by
  unfold spTurnDir
  rw [show (90 : ℝ) - 270 + 360 = 180 by norm_num,
    jsMod_of_nonneg_lt (by norm_num) (by norm_num)]
  norm_num

/-- Degenerate-line failure of the resolver: inbound bearing 270 at the
origin (0,0) towards (0,4) with turn radius 4 puts the destination at
the turn centre, so both radical-axis coefficients vanish. -/
lemma straighteningPoint_degenerate_eval :
    calculateStraighteningPoint idProj idProj 270 0 0 0 4 4 = .error .degenerateLine := by
  simp only [calculateStraighteningPoint, idProj]
  rw [calculateBearing_equator_east (by norm_num) (by norm_num), spTurnDir_270_90,
    cos_270deg, sin_270deg]
  norm_num

/-! Claim C1: chaining of ETA and EFR across legs. -/

lemma mkLegData_eta (fp : FlightPlan) (i : ℕ) (t e : ℝ) :
    (mkLegData fp i t e).eta = t + (mkLegData fp i t e).ete := rfl

lemma mkLegData_efr (fp : FlightPlan) (i : ℕ) (t e : ℝ) :
    (mkLegData fp i t e).efr = e - (mkLegData fp i t e).legFuel := rfl

/-- Claim C1 (confirmed): for every flight plan and every leg index,
`flightPlanUtils.calculateLegData` satisfies
`eta(leg i) = initTimeSec + Σ_{j ≤ i} ete(leg j)` and
`efr(leg i) = initFob − Σ_{j ≤ i} legFuel(leg j)`; equivalently the ETA
chain is seeded from `initTimeSec` and advances by each leg's ETE, and
the EFR chain is seeded from `initFob` and decreases by each leg's
fuel. -/
theorem calculateLegData_eta_efr_invariant (fp : FlightPlan) (i : ℕ) :
    (calculateLegData fp i).eta =
      fp.initTimeSec + ∑ j ∈ Finset.range (i + 1), (calculateLegData fp j).ete ∧
    (calculateLegData fp i).efr =
      fp.initFob - ∑ j ∈ Finset.range (i + 1), (calculateLegData fp j).legFuel := by
  induction i with
  | zero =>
    constructor
    · rw [Finset.sum_range_one]
      exact mkLegData_eta fp 0 fp.initTimeSec fp.initFob
    · rw [Finset.sum_range_one]
      exact mkLegData_efr fp 0 fp.initTimeSec fp.initFob
  | succ n ih =>
    have heta : (calculateLegData fp (n + 1)).eta =
        (calculateLegData fp n).eta + (calculateLegData fp (n + 1)).ete := rfl
    have hefr : (calculateLegData fp (n + 1)).efr =
        (calculateLegData fp n).efr - (calculateLegData fp (n + 1)).legFuel := rfl
    constructor
    · rw [heta, ih.1, Finset.sum_range_succ _ (n + 1)]
      ring
    · rw [hefr, ih.2, Finset.sum_range_succ _ (n + 1)]
      ring

/-! Claims C10 and C2: totality of the sequencer and the per-leg
fallback on turn-geometry failure. -/

lemma calcLegsAux_length (proj unproj : ℝ → ℝ → ℝ × ℝ) (fp : FlightPlan) :
    ∀ (pts : List FlightPlanTurnPoint) (ib : Option ℝ) (first : Bool),
      (calcLegsAux proj unproj fp ib first pts).length = pts.length - 1 := by
  intro pts
  induction pts with
  | nil => intro ib first; rfl
  | cons origin rest ih =>
    intro ib first
    cases rest with
    | nil => rfl
    | cons destination rest2 =>
      simp only [calcLegsAux, List.length_cons, ih]
      omega

/-- Claim C10 (confirmed): `calculateAllLegData` is a total function of
the flight plan — in this embedding its only fallible step,
`calculateStraighteningPoint` (an `Except`), is consumed by the
`match` in `legStep` whose error branch substitutes the straight-segment
fallback, so the sequencer always returns a result list covering every
leg: its length is `points.length - 1` (zero for fewer than two
points), for every flight plan and projection. -/
theorem calculateAllLegData_total (proj unproj : ℝ → ℝ → ℝ × ℝ) (fp : FlightPlan) :
    (calculateAllLegData proj unproj fp).length = fp.points.length - 1 :=
  calcLegsAux_length proj unproj fp fp.points (some 0) true

/-- Claim C2 (confirmed): when `calculateStraighteningPoint` fails for a
leg beyond the first (any of its error cases), the sequencer still
produces a result for that leg, with the straightening point equal to
the leg's origin waypoint and turn direction set to the sentinel `1`
used for no-arc legs (the value the spec labels CW), and goes on to
compute every remaining leg (the result still has one entry per
remaining waypoint pair). -/
theorem legFailureFallback (proj unproj : ℝ → ℝ → ℝ × ℝ) (fp : FlightPlan) (b : ℝ)
    (origin destination : FlightPlanTurnPoint) (rest : List FlightPlanTurnPoint)
    (e : SPError)
    (herr : calculateStraighteningPoint proj unproj b origin.lat origin.lon
      destination.lat destination.lon
      (calculateTurnRadius destination.tas fp.bankAngle) = .error e) :
    (calcLegsAux proj unproj fp (some b) false (origin :: destination :: rest)).length =
      (origin :: destination :: rest).length - 1 ∧
    (calcLegsAux proj unproj fp (some b) false
        (origin :: destination :: rest)).head?.map
      (fun r => (r.straighteningLat, r.straighteningLon, r.turnDirection)) =
      some (some origin.lat, some origin.lon, 1) := by
  refine ⟨calcLegsAux_length proj unproj fp _ _ _, ?_⟩
  simp only [calcLegsAux, List.head?_cons, Option.map_some]
  simp only [legStep, Bool.false_eq_true, if_false, herr]
  rfl

/-- Witness for C2: a concrete degenerate leg (destination at the turn
centre) where the resolver fails with the degenerate-line error, on a
45-degree-bank plan whose turn radius is exactly 4 m. -/
theorem legFailureFallback_witness :
    (calcLegsAux idProj idProj ⟨[], 0, 45, 0, 0⟩ (some 270) false
      [⟨0, 0, 300, 0, 0, 0, 0⟩, ⟨0, 4, tasStar, 0, 0, 0, 0⟩]).length = 1 ∧
    (calcLegsAux idProj idProj ⟨[], 0, 45, 0, 0⟩ (some 270) false
        [⟨0, 0, 300, 0, 0, 0, 0⟩, ⟨0, 4, tasStar, 0, 0, 0, 0⟩]).head?.map
      (fun r => (r.straighteningLat, r.straighteningLon, r.turnDirection)) =
      some (some 0, some 0, 1) := by
  have h := legFailureFallback idProj idProj ⟨[], 0, 45, 0, 0⟩ 270
    ⟨0, 0, 300, 0, 0, 0, 0⟩ ⟨0, 4, tasStar, 0, 0, 0, 0⟩ [] .degenerateLine
    (by
      show calculateStraighteningPoint idProj idProj 270 0 0 0 4
        (calculateTurnRadius tasStar 45) = .error .degenerateLine
      rw [calculateTurnRadius_tasStar]
      exact straighteningPoint_degenerate_eval)
  exact ⟨h.1, h.2⟩

/-! Claim C6: the turn radius formula.  The source converts knots to m/s
with the factor 0.514 (legCalculations.ts line 45), not 0.514444, and
performs no domain check on the bank angle. -/

/-- Counterexample to claim C6 as stated: at `tas = 100`, `bank = 45`
(inside the claimed valid interval), `calculateTurnRadius` does not
equal the claimed formula with conversion factor 0.514444 — the source
uses 0.514. -/
theorem calculateTurnRadius_constant_cx :
    calculateTurnRadius 100 45 ≠
      (100 * 0.514444) ^ 2 / (9.80665 * Real.tan (45 * Real.pi / 180)) ∧
    (0 : ℝ) < 45 ∧ (45 : ℝ) < 90 := by
  refine ⟨?_, by norm_num, by norm_num⟩
  simp only [calculateTurnRadius]
  rw [show (45 : ℝ) * Real.pi / 180 = Real.pi / 4 by ring, Real.tan_pi_div_four]
  norm_num

/-- Claim C6 (corrected): for every tas and every bank angle strictly
between 0 and 90 degrees, `calculateTurnRadius tas bank` equals
`(tas * 0.514)^2 / (9.80665 * tan(bank in radians))` — knots-to-m/s
factor 0.514, not 0.514444 — and for nonzero tas the result is a finite
positive real; no domain check is performed, out-of-range bank angles
are not rejected by the engine. -/
theorem calculateTurnRadius_formula (tas bank : ℝ) (h0 : 0 < bank) (h90 : bank < 90) :
    calculateTurnRadius tas bank =
      (tas * 0.514) ^ 2 / (9.80665 * Real.tan (bank * Real.pi / 180)) ∧
    (tas ≠ 0 → 0 < calculateTurnRadius tas bank) := by
  have hpi := Real.pi_pos
  have htan : 0 < Real.tan (bank * Real.pi / 180) :=
    Real.tan_pos_of_pos_of_lt_pi_div_two (by positivity) (by nlinarith)
  have hformula : calculateTurnRadius tas bank =
      (tas * 0.514) ^ 2 / (9.80665 * Real.tan (bank * Real.pi / 180)) := by
    simp only [calculateTurnRadius]
    ring
  refine ⟨hformula, fun htas => ?_⟩
  rw [hformula]
  have hnum : 0 < (tas * 0.514) ^ 2 := by positivity
  exact div_pos hnum (by positivity)

/-- Witness for the corrected C6 at `tas = 100`, `bank = 45`. -/
theorem calculateTurnRadius_formula_witness :
    calculateTurnRadius 100 45 =
      (100 * 0.514) ^ 2 / (9.80665 * Real.tan (45 * Real.pi / 180)) ∧
    0 < calculateTurnRadius 100 45 := by
  have h := calculateTurnRadius_formula 100 45 (by norm_num) (by norm_num)
  exact ⟨h.1, h.2 (by norm_num)⟩

/-! Claim C3: the wind-triangle domain error.  The source's
`calculateHeading` (legCalculations.ts lines 276-294) has no error
reporting at all: when the arcsine argument exceeds 1 in magnitude,
`Math.asin` yields NaN and the function silently returns a NaN heading
(modelled as `none`). -/

/-- Evaluation of the code at the failing input of claim C3: course 0,
wind 100 kt from 270, tas 50 kt gives a pure crosswind of 100 kt against
a ground speed of 50 kt; the arcsine argument is 2 and the heading is
NaN (`none`) — no domain error is reported to the caller. -/
theorem calculateHeading_nan_eval : calculateHeading 0 100 270 50 = none := by
  have h1 : jsMod ((270 : ℝ) + 180) 360 = 90 := by
    rw [show (270 : ℝ) + 180 = 450 by norm_num,
      jsMod_of_le_lt (by norm_num) (by norm_num) (by norm_num)]
    norm_num
  have h2 : jsMod ((90 : ℝ) - 0 + 360) 360 = 90 := by
    rw [show (90 : ℝ) - 0 + 360 = 450 by norm_num,
      jsMod_of_le_lt (by norm_num) (by norm_num) (by norm_num)]
    norm_num
  simp only [calculateHeading, h1, h2]
  rw [show (90 : ℝ) * (Real.pi / 180) = Real.pi / 2 by ring,
    Real.cos_pi_div_two, Real.sin_pi_div_two]
  norm_num [jsAsin]

/-! Claim C4: root selection by tangent alignment.
`calculateStraighteningPoint` delegates its root choice to `spSelect`
over the two quadratic candidates (legCalculations.ts lines 179-202). -/

/-- Claim C4 (confirmed): whenever at least one of the two candidates
has a positive tangent-alignment dot product, the selected straightening
point has a positive dot product (the aligned root); when both are
non-positive the selection falls back to the candidate with the larger
(least negative) dot product — the warning it emits is a side effect
outside the model. -/
theorem spSelect_alignment (td : ℝ) (c d p1 p2 : ℝ × ℝ) :
    ((0 < spDot td c d p1 ∨ 0 < spDot td c d p2) →
      0 < spDot td c d (spSelect td c d p1 p2)) ∧
    (spDot td c d p1 ≤ 0 → spDot td c d p2 ≤ 0 →
      (spSelect td c d p1 p2 = p1 ∨ spSelect td c d p1 p2 = p2) ∧
      spDot td c d (spSelect td c d p1 p2) =
        max (spDot td c d p1) (spDot td c d p2)) := by
  unfold spSelect
  constructor
  · intro h
    split_ifs with h1 h2 h3
    · exact h1
    · exact h2
    · rcases h with hh | hh
      · exact absurd hh h1
      · exact absurd hh h2
    · rcases h with hh | hh
      · exact absurd hh h1
      · exact absurd hh h2
  · intro hp1 hp2
    split_ifs with h1 h2 h3
    · exact absurd h1 (not_lt.mpr hp1)
    · exact absurd h2 (not_lt.mpr hp2)
    · exact ⟨Or.inl rfl, (max_eq_left h3.le).symm⟩
    · exact ⟨Or.inr rfl, (max_eq_right (not_lt.mp h3)).symm⟩

/-- Witness for C4 at the concrete turn of the worked example (centre
(0,4), destination (0,-1), clockwise): candidate (2.4, 0.8) has dot
product 12, so it is selected and its dot product is positive. -/
theorem spSelect_alignment_witness :
    0 < spDot (-1) (0, 4) (0, -1) (spSelect (-1) (0, 4) (0, -1) (2.4, 0.8) (-2.4, 0.8)) := by
  refine (spSelect_alignment (-1) (0, 4) (0, -1) (2.4, 0.8) (-2.4, 0.8)).1 (Or.inl ?_)
  norm_num [spDot]

/-! Claim C5: turn direction and turn centre.  The source returns `1`
(not `-1`) when the mod-360 bearing difference exceeds 180, and its own
comments identify `1` with counter-clockwise. -/

lemma spTurnDir_sq (a b : ℝ) : (spTurnDir a b) ^ 2 = 1 := by
  unfold spTurnDir
  split_ifs <;> norm_num

lemma td_offset_norm (t θ R : ℝ) (ht : t ^ 2 = 1) :
    (-(t * Real.cos θ * R)) ^ 2 + (t * Real.sin θ * R) ^ 2 = R ^ 2 := by
  have h1 := Real.sin_sq_add_cos_sq θ
  linear_combination (t ^ 2 * R ^ 2) * h1 + R ^ 2 * ht

/-- Claim C5 (corrected): every successful turn resolution carries the
turn direction `1` when `(approxOutboundBearing − inboundBearing) mod
360` exceeds 180 degrees and `-1` otherwise — the opposite numeric
encoding from the claim, the source's comments identifying `1` as CCW
and `-1` as CW — and the returned turn centre is the unprojection of the
point offset from the projected origin by the radius perpendicular to
the inbound bearing on the side selected by that direction (the offset
is orthogonal to the inbound track direction and has squared norm
`R²`). -/
theorem spTurnDirection_encoding (proj unproj : ℝ → ℝ → ℝ × ℝ)
    (ib la1 lo1 la2 lo2 R : ℝ) (r : SPResult)
    (hok : calculateStraighteningPoint proj unproj ib la1 lo1 la2 lo2 R = .ok r) :
    (r.td = if 180 < jsMod (calculateBearing la1 lo1 la2 lo2 - ib + 360) 360
      then 1 else -1) ∧
    (r.cLat, r.cLon) = unproj
      ((proj la1 lo1).1 - r.td * Real.cos (ib * Real.pi / 180) * R)
      ((proj la1 lo1).2 + r.td * Real.sin (ib * Real.pi / 180) * R) ∧
    (-(r.td * Real.cos (ib * Real.pi / 180) * R)) * Real.sin (ib * Real.pi / 180) +
      (r.td * Real.sin (ib * Real.pi / 180) * R) * Real.cos (ib * Real.pi / 180) = 0 ∧
    (-(r.td * Real.cos (ib * Real.pi / 180) * R)) ^ 2 +
      (r.td * Real.sin (ib * Real.pi / 180) * R) ^ 2 = R ^ 2 := by
  simp only [calculateStraighteningPoint] at hok
  split_ifs at hok with h1 h2 h3 h4
  all_goals
    first
    | exact Except.noConfusion hok
    | (rw [Except.ok.injEq] at hok
       subst hok
       refine ⟨?_, ?_, by ring, ?_⟩
       · rfl
       · rfl
       · exact td_offset_norm _ _ _ (spTurnDir_sq _ _))

lemma spTurnDir_0_270 : spTurnDir 0 270 = 1 := by
  unfold spTurnDir
  rw [show (270 : ℝ) - 0 + 360 = 630 by norm_num,
    jsMod_of_le_lt (by norm_num) (by norm_num) (by norm_num)]
  norm_num

lemma sqrt_4000000 : Real.sqrt 4000000 = 2000 := by
  rw [show (4000000 : ℝ) = 2000 ^ 2 by norm_num, Real.sqrt_sq (by norm_num)]

/-- Full evaluation of the resolver on a concrete left-reversal turn:
inbound bearing 0 at origin (0,0) towards (0,-1) with radius 1000 under
the identity projection.  The bearing difference is 270 (> 180), the
turn direction is `1`, and the selected straightening point is the
second quadratic root. -/
lemma straighteningPoint_scenarioA_eval :
    calculateStraighteningPoint idProj idProj 0 0 0 0 (-1) 1000 =
      .ok ⟨-1000, 0, -(2000 / 1000001), -(2000000 / 1000001), 1⟩ := by
  simp only [calculateStraighteningPoint, idProj, spSelect, spDot]
  rw [calculateBearing_equator_west (by norm_num) (by norm_num), spTurnDir_0_270,
    cos_0deg, sin_0deg]
  norm_num [sqrt_4000000]

/-- Counterexample to claim C5 as stated: at inbound bearing 0, origin
(0,0), destination (0,-1), the mod-360 bearing difference is 270 > 180,
yet the resolver returns turn direction `1`, not the `-1` the claim
requires for that case. -/
theorem spTurnDirection_encoding_cx :
    (calculateStraighteningPoint idProj idProj 0 0 0 0 (-1) 1000).map SPResult.td =
      .ok 1 ∧
    180 < jsMod (calculateBearing 0 0 0 (-1) - 0 + 360) 360 ∧
    (1 : ℝ) ≠ -1 := by
  refine ⟨?_, ?_, by norm_num⟩
  · rw [straighteningPoint_scenarioA_eval]
    rfl
  · rw [calculateBearing_equator_west (by norm_num) (by norm_num),
      show (270 : ℝ) - 0 + 360 = 630 by norm_num,
      jsMod_of_le_lt (by norm_num) (by norm_num) (by norm_num)]
    norm_num

/-! Claim C9: arc endpoint fidelity of `generateArcPoints`. -/

/-- Inversion of `atan2` on a circle of radius `R`: the point at angle
`atan2 y x` on the circle centred at the origin through `(x, y)` is
`(x, y)` itself. -/
lemma atan2_cos_sin {x y R : ℝ} (hR : 0 < R) (h : x ^ 2 + y ^ 2 = R ^ 2) :
    R * Real.cos (atan2 y x) = x ∧ R * Real.sin (atan2 y x) = y := by
  have hRne : R ≠ 0 := ne_of_gt hR
  unfold atan2
  rcases lt_trichotomy 0 x with hx | hx | hx
  · rw [if_pos hx]
    have hxne : x ≠ 0 := ne_of_gt hx
    have hsq : 1 + (y / x) ^ 2 = (R / x) ^ 2 := by
      field_simp
      linarith
    have hsqrt : Real.sqrt (1 + (y / x) ^ 2) = R / x := by
      rw [hsq, Real.sqrt_sq (by positivity)]
    constructor
    · rw [Real.cos_arctan, hsqrt]
      field_simp
    · rw [Real.sin_arctan, hsqrt]
      field_simp
  · rw [if_neg (by rw [← hx]; exact lt_irrefl 0), if_neg (by rw [← hx]; exact lt_irrefl 0)]
    have hx0 : x = 0 := hx.symm
    have hy2 : y ^ 2 = R ^ 2 := by
      rw [hx0] at h
      linarith
    have hy0 : (y - R) * (y + R) = 0 := by
      have : y ^ 2 - R ^ 2 = 0 := by linarith
      linear_combination this
    rcases mul_eq_zero.mp hy0 with hyR | hyR
    · have hyR : y = R := by linarith
      rw [if_pos (by rw [hyR]; exact hR)]
      rw [Real.cos_pi_div_two, Real.sin_pi_div_two, hx0, hyR]
      constructor <;> ring
    · have hyR : y = -R := by linarith
      have hylt : y < 0 := by rw [hyR]; linarith
      rw [if_neg (by linarith), if_pos hylt]
      rw [Real.cos_neg, Real.sin_neg, Real.cos_pi_div_two, Real.sin_pi_div_two, hx0, hyR]
      constructor <;> ring
  · rw [if_neg (by linarith), if_pos hx]
    have hxne : x ≠ 0 := ne_of_lt hx
    have hsq : 1 + (y / x) ^ 2 = (R / -x) ^ 2 := by
      field_simp
      linarith
    have hsqrt : Real.sqrt (1 + (y / x) ^ 2) = R / -x := by
      rw [hsq, Real.sqrt_sq (div_nonneg hR.le (by linarith))]
    have hcos : Real.cos (Real.arctan (y / x)) = -x / R := by
      rw [Real.cos_arctan, hsqrt, one_div_div]
    have hsin : Real.sin (Real.arctan (y / x)) = -y / R := by
      rw [Real.sin_arctan, hsqrt, div_div_div_eq]
      rw [show y * -x = -y * x by ring, mul_comm x R]
      rw [mul_div_mul_right _ _ hxne]
    split_ifs with hy
    · constructor
      · rw [Real.cos_add, Real.cos_pi, Real.sin_pi, hcos, hsin]
        field_simp
      · rw [Real.sin_add, Real.cos_pi, Real.sin_pi, hcos, hsin]
        field_simp
    · constructor
      · rw [Real.cos_sub, Real.cos_pi, Real.sin_pi, hcos, hsin]
        field_simp
      · rw [Real.sin_sub, Real.cos_pi, Real.sin_pi, hcos, hsin]
        field_simp

/-- Claim C9 (confirmed): for every centre, radius, start/end points,
turn direction and `numPoints ≥ 1`, `generateArcPoints` returns exactly
`numPoints + 1` points; provided the projected start and end points lie
on the circle of the given radius about the projected centre and the
projection round-trips exactly (the model's rendering of "within
projection round-trip tolerance"), the first point equals the start
point and the last point equals the end point. -/
theorem generateArcPoints_endpoints (proj unproj : ℝ → ℝ → ℝ × ℝ)
    (hpu : ∀ la lo, unproj (proj la lo).1 (proj la lo).2 = (la, lo))
    (centerLat centerLon radiusM startLat startLon endLat endLon td : ℝ)
    (numPoints : ℕ) (hR : 0 < radiusM) (hn : 1 ≤ numPoints)
    (hs : ((proj startLat startLon).1 - (proj centerLat centerLon).1) ^ 2 +
      ((proj startLat startLon).2 - (proj centerLat centerLon).2) ^ 2 = radiusM ^ 2)
    (he : ((proj endLat endLon).1 - (proj centerLat centerLon).1) ^ 2 +
      ((proj endLat endLon).2 - (proj centerLat centerLon).2) ^ 2 = radiusM ^ 2) :
    (generateArcPoints proj unproj centerLat centerLon radiusM startLat startLon
      endLat endLon td numPoints).length = numPoints + 1 ∧
    (generateArcPoints proj unproj centerLat centerLon radiusM startLat startLon
      endLat endLon td numPoints)[0]? = some (startLat, startLon) ∧
    (generateArcPoints proj unproj centerLat centerLon radiusM startLat startLon
      endLat endLon td numPoints)[numPoints]? = some (endLat, endLon) := by
  have hs' := atan2_cos_sin hR hs
  have he' := atan2_cos_sin hR he
  simp only [generateArcPoints]
  set c := proj centerLat centerLon with hc
  set s := proj startLat startLon with hsp
  set e := proj endLat endLon with hep
  set θs := atan2 (s.2 - c.2) (s.1 - c.1) with hθs
  set θe := atan2 (e.2 - c.2) (e.1 - c.1) with hθe
  set Ns := if θs < 0 then θs + 2 * Real.pi else θs with hNs
  set Ne := if θe < 0 then θe + 2 * Real.pi else θe with hNe
  have hcosNs : Real.cos Ns = Real.cos θs := by
    rw [hNs]; split_ifs with h
    · exact Real.cos_add_two_pi θs
    · rfl
  have hsinNs : Real.sin Ns = Real.sin θs := by
    rw [hNs]; split_ifs with h
    · exact Real.sin_add_two_pi θs
    · rfl
  have hcosNe : Real.cos Ne = Real.cos θe := by
    rw [hNe]; split_ifs with h
    · exact Real.cos_add_two_pi θe
    · rfl
  have hsinNe : Real.sin Ne = Real.sin θe := by
    rw [hNe]; split_ifs with h
    · exact Real.sin_add_two_pi θe
    · rfl
  set D0 := Ne - Ns with hD0
  set D := if td = 1 ∧ D0 < 0 then D0 + 2 * Real.pi
    else if td = -1 ∧ 0 < D0 then D0 - 2 * Real.pi else D0 with hD
  have hcosD : Real.cos (Ns + D) = Real.cos θe := by
    rw [hD]; split_ifs with h1 h2
    · rw [hD0, show Ns + (Ne - Ns + 2 * Real.pi) = Ne + 2 * Real.pi from by ring,
        Real.cos_add_two_pi, hcosNe]
    · rw [hD0, show Ns + (Ne - Ns - 2 * Real.pi) = Ne - 2 * Real.pi from by ring,
        Real.cos_sub_two_pi, hcosNe]
    · rw [hD0, show Ns + (Ne - Ns) = Ne from by ring, hcosNe]
  have hsinD : Real.sin (Ns + D) = Real.sin θe := by
    rw [hD]; split_ifs with h1 h2
    · rw [hD0, show Ns + (Ne - Ns + 2 * Real.pi) = Ne + 2 * Real.pi from by ring,
        Real.sin_add_two_pi, hsinNe]
    · rw [hD0, show Ns + (Ne - Ns - 2 * Real.pi) = Ne - 2 * Real.pi from by ring,
        Real.sin_sub_two_pi, hsinNe]
    · rw [hD0, show Ns + (Ne - Ns) = Ne from by ring, hsinNe]
  refine ⟨by simp, ?_, ?_⟩
  · rw [List.getElem?_map, List.getElem?_range (by omega : 0 < numPoints + 1)]
    simp only [Option.map_some', Option.some.injEq, Nat.cast_zero, zero_div,
      mul_zero, add_zero]
    rw [hcosNs, hsinNs,
      show c.1 + radiusM * Real.cos θs = s.1 from by linarith [hs'.1],
      show c.2 + radiusM * Real.sin θs = s.2 from by linarith [hs'.2], hsp]
    exact hpu startLat startLon
  · rw [List.getElem?_map, List.getElem?_range (by omega : numPoints < numPoints + 1)]
    simp only [Option.map_some', Option.some.injEq]
    rw [show ((numPoints : ℕ) : ℝ) / ((numPoints : ℕ) : ℝ) = 1 from
      div_self (Nat.cast_ne_zero.mpr (by omega)), mul_one, hcosD, hsinD,
      show c.1 + radiusM * Real.cos θe = e.1 from by linarith [he'.1],
      show c.2 + radiusM * Real.sin θe = e.2 from by linarith [he'.2], hep]
    exact hpu endLat endLon

/-- Witness for C9: identity projection, centre (0,0), radius 5, start
(5,0), end (3,4), counter-clockwise, two interior samples. -/
theorem generateArcPoints_endpoints_witness :
    (generateArcPoints idProj idProj 0 0 5 5 0 3 4 1 2).length = 2 + 1 ∧
    (generateArcPoints idProj idProj 0 0 5 5 0 3 4 1 2)[0]? = some (5, 0) ∧
    (generateArcPoints idProj idProj 0 0 5 5 0 3 4 1 2)[2]? = some (3, 4) :=
  generateArcPoints_endpoints idProj idProj (fun la lo => rfl) 0 0 5 5 0 3 4 1 2
    (by norm_num) (by norm_num) (by norm_num [idProj]) (by norm_num [idProj])

/-! Haversine evaluation on the equator, needed to run
`flightPlanUtils.calculateLegData` on concrete waypoints. -/

/-- Core step: the haversine central angle of a half-angle `θ` in
`[0, π/2)` is `2θ`. -/
lemma atan2_half_angle (θ : ℝ) (h0 : 0 ≤ θ) (h2 : θ < Real.pi / 2) :
    2 * atan2 (Real.sqrt (Real.sin θ * Real.sin θ))
      (Real.sqrt (1 - Real.sin θ * Real.sin θ)) = 2 * θ := by
  have hs : Real.sqrt (Real.sin θ * Real.sin θ) = Real.sin θ :=
    Real.sqrt_mul_self (Real.sin_nonneg_of_nonneg_of_le_pi h0 (by linarith [Real.pi_pos]))
  have hsc := Real.sin_sq_add_cos_sq θ
  have hc1 : 1 - Real.sin θ * Real.sin θ = Real.cos θ * Real.cos θ := by
    nlinarith [hsc]
  have hcpos : 0 < Real.cos θ :=
    Real.cos_pos_of_mem_Ioo ⟨by linarith [Real.pi_pos], h2⟩
  have hc : Real.sqrt (1 - Real.sin θ * Real.sin θ) = Real.cos θ := by
    rw [hc1, Real.sqrt_mul_self hcpos.le]
  rw [hs, hc, atan2_of_pos_x hcpos, ← Real.tan_eq_sin_div_cos,
    Real.arctan_tan (by linarith [Real.pi_pos]) h2]

/-- Haversine distance between two points on the equator less than 180
degrees of longitude apart, eastbound. -/
lemma haversineDistance_equator {a b : ℝ} (h1 : a ≤ b) (h2 : b - a < 180) :
    haversineDistance 0 a 0 b = 6371000 * ((b - a) * Real.pi / 180) := by
  have hpi := Real.pi_pos
  simp only [haversineDistance]
  rw [show (0 : ℝ) * Real.pi / 180 = 0 by ring]
  norm_num
  rw [show (b * Real.pi / 180 - a * Real.pi / 180) / 2 = (b - a) * Real.pi / 360 by ring]
  rw [show (2 : ℝ) * atan2 (Real.sqrt (Real.sin ((b - a) * Real.pi / 360) *
        Real.sin ((b - a) * Real.pi / 360)))
      (Real.sqrt (1 - Real.sin ((b - a) * Real.pi / 360) *
        Real.sin ((b - a) * Real.pi / 360))) =
      2 * ((b - a) * Real.pi / 360) from
    atan2_half_angle _ (div_nonneg (mul_nonneg (sub_nonneg.mpr h1) hpi.le) (by norm_num))
      (by nlinarith)]
  ring

/-! Claim C8: which waypoint's wind drives the wind triangle.
`calculateAllLegData` uses the destination's wind (legCalculations.ts
lines 386-392) but `flightPlanUtils.calculateLegData` uses the ORIGIN
waypoint's wind and TAS (flightPlanUtils.ts lines 74-89). -/

/-- Modelled from the spec: per-leg ETE computed with the ground speed
taken from the DESTINATION waypoint's `windSpeed`, `windDirection` and
`tas` (spec section 4.5 step 6, the behaviour claim C8 asserts for the
leg data), with the code's course and distance. -/
def specDestEte (fp : FlightPlan) (indexWptFrom : ℕ) : ℝ :=
  let originWpt := fp.points.getD indexWptFrom default
  let destinationWpt := fp.points.getD (indexWptFrom + 1) default
  let lat1 := originWpt.lat * Real.pi / 180
  let lon1 := originWpt.lon * Real.pi / 180
  let lat2 := destinationWpt.lat * Real.pi / 180
  let lon2 := destinationWpt.lon * Real.pi / 180
  let dLon := lon2 - lon1
  let y := Real.sin dLon * Real.cos lat2
  let x := Real.cos lat1 * Real.sin lat2 - Real.sin lat1 * Real.cos lat2 * Real.cos dLon
  let bearing := atan2 y x * 180 / Real.pi
  let course := jsMod (bearing + fp.declination + 360) 360
  let lengthMeters := haversineDistance originWpt.lat originWpt.lon
    destinationWpt.lat destinationWpt.lon
  let windAngleRad :=
    jsMod (jsMod (destinationWpt.windDir + 180) 360 - course + 360) 360 * (Real.pi / 180)
  let tailComponent := destinationWpt.windSpeed * Real.cos windAngleRad
  let groundSpeed := destinationWpt.tas + tailComponent
  jsRound (lengthMeters / 1852 / (groundSpeed / 3600))

/-- A one-leg plan whose origin waypoint carries a 100 kt direct
headwind (wind from 90, course 90) and whose destination waypoint has
no wind; both have 400 kt TAS. -/
def windPlanExample : FlightPlan :=
  ⟨[⟨0, 0, 400, 0, 0, 100, 90⟩, ⟨0, 1, 400, 0, 0, 0, 0⟩], 0, 45, 0, 0⟩

lemma jsMod450 : jsMod (450 : ℝ) 360 = 90 := by
  rw [jsMod_of_le_lt (by norm_num) (by norm_num) (by norm_num)]
  norm_num

lemma jsMod540 : jsMod (540 : ℝ) 360 = 180 := by
  rw [jsMod_of_le_lt (by norm_num) (by norm_num) (by norm_num)]
  norm_num

lemma jsMod270 : jsMod (270 : ℝ) 360 = 270 :=
  jsMod_of_nonneg_lt (by norm_num) (by norm_num)

lemma jsMod180 : jsMod (180 : ℝ) 360 = 180 :=
  jsMod_of_nonneg_lt (by norm_num) (by norm_num)

lemma windPlan_ete_eval : (calculateLegData windPlanExample 0).ete = 720 := by
  have hpi := Real.pi_pos
  have hsin : 0 < Real.sin (Real.pi / 180) :=
    Real.sin_pos_of_pos_of_lt_pi (by positivity) (by nlinarith)
  simp only [calculateLegData, mkLegData, windPlanExample, List.getD_cons_zero,
    List.getD_cons_succ]
  simp only [cos_0deg, sin_0deg]
  rw [show (1 : ℝ) * Real.pi / 180 - 0 * Real.pi / 180 = Real.pi / 180 by ring,
    show Real.sin (Real.pi / 180) * 1 = Real.sin (Real.pi / 180) by ring,
    show (1 : ℝ) * 0 - 0 * 1 * Real.cos (Real.pi / 180) = 0 by ring,
    atan2_zero_of_pos hsin,
    show Real.pi / 2 * 180 / Real.pi + 0 + 360 = 450 by
      field_simp
      ring,
    jsMod450,
    show (90 : ℝ) + 180 = 270 by norm_num,
    jsMod270,
    show (270 : ℝ) - 90 + 360 = 540 by norm_num,
    jsMod540,
    show (180 : ℝ) * (Real.pi / 180) = Real.pi by ring,
    Real.cos_pi,
    haversineDistance_equator (by norm_num : (0 : ℝ) ≤ 1) (by norm_num),
    show (6371000 : ℝ) * ((1 - 0) * Real.pi / 180) / 1852 / ((400 + 100 * -1) / 3600) =
      318550 / 1389 * Real.pi by ring,
    jsRound_eq (n := 720)
      (by linarith [Real.pi_gt_d6])
      (by push_cast; linarith [Real.pi_lt_d6])]
  norm_num

lemma windPlan_specDestEte_eval : specDestEte windPlanExample 0 = 540 := by
  have hpi := Real.pi_pos
  have hsin : 0 < Real.sin (Real.pi / 180) :=
    Real.sin_pos_of_pos_of_lt_pi (by positivity) (by nlinarith)
  simp only [specDestEte, windPlanExample, List.getD_cons_zero, List.getD_cons_succ]
  simp only [cos_0deg, sin_0deg]
  rw [show (1 : ℝ) * Real.pi / 180 - 0 * Real.pi / 180 = Real.pi / 180 by ring,
    show Real.sin (Real.pi / 180) * 1 = Real.sin (Real.pi / 180) by ring,
    show (1 : ℝ) * 0 - 0 * 1 * Real.cos (Real.pi / 180) = 0 by ring,
    atan2_zero_of_pos hsin,
    show Real.pi / 2 * 180 / Real.pi + 0 + 360 = 450 by
      field_simp
      ring,
    jsMod450,
    show (0 : ℝ) + 180 = 180 by norm_num,
    jsMod180,
    show (180 : ℝ) - 90 + 360 = 450 by norm_num,
    jsMod450,
    show (90 : ℝ) * (Real.pi / 180) = Real.pi / 2 by ring,
    Real.cos_pi_div_two,
    haversineDistance_equator (by norm_num : (0 : ℝ) ≤ 1) (by norm_num),
    show (6371000 : ℝ) * ((1 - 0) * Real.pi / 180) / 1852 / ((400 + 0 * 0) / 3600) =
      159275 / 926 * Real.pi by ring,
    jsRound_eq (n := 540)
      (by linarith [Real.pi_gt_d6])
      (by push_cast; linarith [Real.pi_lt_d6])]
  norm_num

/-- Counterexample to claim C8 as stated: on `windPlanExample`, whose
origin has a 100 kt headwind and whose destination has calm wind, the
leg data's ETE is 720 s (ground speed 300 kt, from the ORIGIN's wind)
whereas the destination-wind formula asserted by the claim gives 540 s
(ground speed 400 kt). -/
theorem legWindSource_cx :
    (calculateLegData windPlanExample 0).ete = 720 ∧
    specDestEte windPlanExample 0 = 540 ∧
    (calculateLegData windPlanExample 0).ete ≠ specDestEte windPlanExample 0 := by
  refine ⟨windPlan_ete_eval, windPlan_specDestEte_eval, ?_⟩
  rw [windPlan_ete_eval, windPlan_specDestEte_eval]
  norm_num

/-- Claim C8 (corrected): in `flightPlanUtils.calculateLegData` the
ground speed feeding the ETE is computed from the ORIGIN waypoint's
`tas`, `windSpeed` and `windDir` (first conjunct, an exact description
of the code); in `calculateAllLegData` each produced leg's heading is
the wind-corrected heading computed from the DESTINATION waypoint's
`windSpeed`, `windDir` and `tas` applied to that leg's course (second
conjunct). -/
theorem legWindSource_amended :
    (∀ (fp : FlightPlan) (i : ℕ),
      (calculateLegData fp i).ete = jsRound ((calculateLegData fp i).distance /
        (((fp.points.getD i default).tas + (fp.points.getD i default).windSpeed *
          Real.cos (jsMod (jsMod ((fp.points.getD i default).windDir + 180) 360 -
            (calculateLegData fp i).course + 360) 360 * (Real.pi / 180))) / 3600))) ∧
    (∀ (proj unproj : ℝ → ℝ → ℝ × ℝ) (fp : FlightPlan) (ib : Option ℝ) (first : Bool)
      (o d : FlightPlanTurnPoint) (rest : List FlightPlanTurnPoint)
      (r : LegCalculationResult) (rest2 : List LegCalculationResult),
      calcLegsAux proj unproj fp ib first (o :: d :: rest) = r :: rest2 →
      r.heading = (r.outboundBearing.map
          (fun ob => jsMod (ob + fp.declination + 360) 360)).bind (fun cs =>
        calculateHeading cs d.windSpeed d.windDir d.tas)) := by
  constructor
  · intro fp i
    cases i <;> rfl
  · intro proj unproj fp ib first o d rest r rest2 h
    simp only [calcLegsAux, List.cons.injEq] at h
    obtain ⟨h1, -⟩ := h
    subst h1
    rfl

/-- Witness for the corrected C8 on a concrete two-waypoint run. -/
theorem legWindSource_amended_witness :
    (calculateLegData windPlanExample 0).ete =
      jsRound ((calculateLegData windPlanExample 0).distance /
        (((windPlanExample.points.getD 0 default).tas +
          (windPlanExample.points.getD 0 default).windSpeed *
          Real.cos (jsMod (jsMod ((windPlanExample.points.getD 0 default).windDir + 180)
            360 - (calculateLegData windPlanExample 0).course + 360) 360 *
            (Real.pi / 180))) / 3600)) ∧
    (legStep idProj idProj windPlanExample true (some 0)
        ⟨0, 0, 400, 0, 0, 100, 90⟩ ⟨0, 1, 400, 0, 0, 0, 0⟩).heading =
      ((legStep idProj idProj windPlanExample true (some 0)
          ⟨0, 0, 400, 0, 0, 100, 90⟩ ⟨0, 1, 400, 0, 0, 0, 0⟩).outboundBearing.map
        (fun ob => jsMod (ob + windPlanExample.declination + 360) 360)).bind
        (fun cs => calculateHeading cs 0 0 400) :=
  ⟨legWindSource_amended.1 windPlanExample 0,
    legWindSource_amended.2 idProj idProj windPlanExample (some 0) true
      ⟨0, 0, 400, 0, 0, 100, 90⟩ ⟨0, 1, 400, 0, 0, 0, 0⟩ [] _ _ rfl⟩

/-! Claim C7: what the reported leg distance measures.  The leg data's
distance is the haversine distance from the ORIGIN WAYPOINT to the
destination; the straightening point exists only in the drawing layer
and never feeds the distance. -/

lemma jsMod360 : jsMod (360 : ℝ) 360 = 0 := by
  rw [jsMod_of_le_lt (by norm_num) (by norm_num) (by norm_num)]
  norm_num

lemma jsMod630 : jsMod (630 : ℝ) 360 = 270 := by
  rw [jsMod_of_le_lt (by norm_num) (by norm_num) (by norm_num)]
  norm_num

lemma spTurnDir_270_270 : spTurnDir 270 270 = -1 := by
  unfold spTurnDir
  rw [show (270 : ℝ) - 270 + 360 = 360 by norm_num, jsMod360]
  norm_num

lemma sqrt_14400 : Real.sqrt 14400 = 120 := by
  rw [show (14400 : ℝ) = 120 ^ 2 by norm_num, Real.sqrt_sq (by norm_num)]

/-- Full evaluation of the resolver on the second leg of the worked
3-waypoint route: inbound bearing 270 at origin (0,0) towards (0,-1)
with turn radius 4 under the identity projection.  The clockwise circle
is centred at (0,4) and the aligned root is (2.4, 0.8). -/
lemma straighteningPoint_scenarioB_eval :
    calculateStraighteningPoint idProj idProj 270 0 0 0 (-1) 4 =
      .ok ⟨0, 4, 2.4, 0.8, -1⟩ := by
  simp only [calculateStraighteningPoint, idProj, spSelect, spDot]
  rw [calculateBearing_equator_west (by norm_num : (-1 : ℝ) < 0) (by norm_num),
    spTurnDir_270_270, cos_270deg, sin_270deg]
  norm_num [sqrt_14400]

lemma calculateHeading_270_nowind : calculateHeading 270 0 0 300 = some 270 := by
  simp only [calculateHeading]
  rw [show (0 : ℝ) + 180 = 180 by norm_num, jsMod180,
    show (180 : ℝ) - 270 + 360 = 270 by norm_num, jsMod270]
  norm_num [jsAsin, Real.arcsin_zero, jsMod270]

/-- The worked 3-waypoint route: an equator run westwards through
(0,1), (0,0), (0,-1), no wind, bank 45; the last waypoint's TAS makes
the second leg's turn radius exactly 4 m. -/
def turnPlanExample : FlightPlan :=
  ⟨[⟨0, 1, 300, 0, 0, 0, 0⟩, ⟨0, 0, 300, 0, 0, 0, 0⟩, ⟨0, -1, tasStar, 0, 0, 0, 0⟩],
    0, 45, 0, 0⟩

lemma turnPlan_leg0_heading :
    (legStep idProj idProj turnPlanExample true (some 0)
      ⟨0, 1, 300, 0, 0, 0, 0⟩ ⟨0, 0, 300, 0, 0, 0, 0⟩).heading = some 270 := by
  simp only [legStep, turnPlanExample, if_true]
  rw [calculateBearing_equator_west (by norm_num : (0 : ℝ) < 1) (by norm_num)]
  simp only [Option.map_some', Option.some_bind]
  rw [show (270 : ℝ) + 0 + 360 = 630 by norm_num, jsMod630]
  exact calculateHeading_270_nowind

lemma turnPlan_leg1_straightening :
    ((calculateAllLegData idProj idProj turnPlanExample)[1]?).map
      (fun r => ((r.straighteningLat, r.straighteningLon) : Option ℝ × Option ℝ)) =
      some (some 2.4, some 0.8) := by
  have h0 := turnPlan_leg0_heading
  simp only [calculateAllLegData, turnPlanExample] at h0 ⊢
  simp only [calcLegsAux, List.getElem?_cons_succ, List.getElem?_cons_zero]
  rw [h0]
  simp only [Option.map_some', Option.some.injEq]
  simp only [legStep, Bool.false_eq_true, if_false]
  rw [show calculateTurnRadius tasStar 45 = 4 from calculateTurnRadius_tasStar,
    straighteningPoint_scenarioB_eval]

/-- Haversine distance between two points on the equator less than 180
degrees of longitude apart, westbound. -/
lemma haversineDistance_equator_west {a b : ℝ} (h1 : b ≤ a) (h2 : a - b < 180) :
    haversineDistance 0 a 0 b = 6371000 * ((a - b) * Real.pi / 180) := by
  have hpi := Real.pi_pos
  simp only [haversineDistance]
  rw [show (0 : ℝ) * Real.pi / 180 = 0 by ring]
  norm_num
  rw [show (b * Real.pi / 180 - a * Real.pi / 180) / 2 = -((a - b) * Real.pi / 360) by
      ring,
    Real.sin_neg,
    show -Real.sin ((a - b) * Real.pi / 360) * -Real.sin ((a - b) * Real.pi / 360) =
      Real.sin ((a - b) * Real.pi / 360) * Real.sin ((a - b) * Real.pi / 360) by ring,
    show (2 : ℝ) * atan2 (Real.sqrt (Real.sin ((a - b) * Real.pi / 360) *
        Real.sin ((a - b) * Real.pi / 360)))
      (Real.sqrt (1 - Real.sin ((a - b) * Real.pi / 360) *
        Real.sin ((a - b) * Real.pi / 360))) =
      2 * ((a - b) * Real.pi / 360) from
    atan2_half_angle _ (div_nonneg (mul_nonneg (sub_nonneg.mpr h1) hpi.le) (by norm_num))
      (by nlinarith)]
  ring

/-- The haversine central angle is strictly monotone in the `a`
parameter on `[0, 1)`. -/
lemma haversine_angle_lt {a b : ℝ} (h0 : 0 ≤ a) (hab : a < b) (hb : b < 1) :
    2 * atan2 (Real.sqrt a) (Real.sqrt (1 - a)) <
      2 * atan2 (Real.sqrt b) (Real.sqrt (1 - b)) := by
  have hsa : 0 < Real.sqrt (1 - a) := Real.sqrt_pos.mpr (by linarith)
  have hsb : 0 < Real.sqrt (1 - b) := Real.sqrt_pos.mpr (by linarith)
  rw [atan2_of_pos_x hsa, atan2_of_pos_x hsb]
  have hnum : Real.sqrt a < Real.sqrt b := Real.sqrt_lt_sqrt h0 hab
  have hbpos : 0 < Real.sqrt b := lt_of_le_of_lt (Real.sqrt_nonneg a) hnum
  have hden : Real.sqrt (1 - b) < Real.sqrt (1 - a) :=
    Real.sqrt_lt_sqrt (by linarith) (by linarith)
  have hq : Real.sqrt a / Real.sqrt (1 - a) < Real.sqrt b / Real.sqrt (1 - b) := by
    calc Real.sqrt a / Real.sqrt (1 - a) < Real.sqrt b / Real.sqrt (1 - a) :=
          (div_lt_div_iff_of_pos_right hsa).mpr hnum
      _ < Real.sqrt b / Real.sqrt (1 - b) := div_lt_div_of_pos_left hbpos hsb hden
  have := Real.arctan_strictMono hq
  linarith

/-- The straightening point of the worked route's second leg, (2.4,
0.8), is strictly farther from the destination (0,-1) than the origin
waypoint (0,0) is. -/
lemma haversine_cx_lt :
    haversineDistance 0 0 0 (-1) < haversineDistance 2.4 0.8 0 (-1) := by
  have hpi := Real.pi_pos
  have hpi4 := Real.pi_le_four
  have hs1pos : 0 < Real.sin (Real.pi / 360) :=
    Real.sin_pos_of_pos_of_lt_pi (by positivity) (by nlinarith)
  have hs2pos : 0 < Real.sin (1.2 * Real.pi / 180) :=
    Real.sin_pos_of_pos_of_lt_pi (by positivity) (by nlinarith)
  have hs3pos : 0 < Real.sin (0.9 * Real.pi / 180) :=
    Real.sin_pos_of_pos_of_lt_pi (by positivity) (by nlinarith)
  have hmono : Real.sin (Real.pi / 360) < Real.sin (1.2 * Real.pi / 180) := by
    apply Real.strictMonoOn_sin
    · constructor <;> [nlinarith; nlinarith]
    · constructor <;> [nlinarith; nlinarith]
    · nlinarith
  have hcos24 : 0 ≤ Real.cos (2.4 * Real.pi / 180) := by
    apply Real.cos_nonneg_of_mem_Icc
    constructor <;> nlinarith
  have hcos24' : Real.cos (2.4 * Real.pi / 180) ≤ 1 := Real.cos_le_one _
  have hs2small : Real.sin (1.2 * Real.pi / 180) < 1.2 * Real.pi / 180 :=
    Real.sin_lt (by positivity)
  have hs3small : Real.sin (0.9 * Real.pi / 180) < 0.9 * Real.pi / 180 :=
    Real.sin_lt (by positivity)
  rw [haversineDistance_equator_west (by norm_num : (-1 : ℝ) ≤ 0) (by norm_num),
    show (6371000 : ℝ) * ((0 - -1) * Real.pi / 180) = 6371000 * (2 * (Real.pi / 360)) by
      ring,
    show (2 : ℝ) * (Real.pi / 360) =
      2 * atan2 (Real.sqrt (Real.sin (Real.pi / 360) * Real.sin (Real.pi / 360)))
        (Real.sqrt (1 - Real.sin (Real.pi / 360) * Real.sin (Real.pi / 360))) from
      (atan2_half_angle _ (by positivity) (by nlinarith)).symm]
  simp only [haversineDistance]
  rw [show ((0 : ℝ) * Real.pi / 180 - 2.4 * Real.pi / 180) / 2 =
      -(1.2 * Real.pi / 180) by ring,
    show ((-1 : ℝ) * Real.pi / 180 - 0.8 * Real.pi / 180) / 2 =
      -(0.9 * Real.pi / 180) by ring,
    Real.sin_neg, Real.sin_neg,
    show (0 : ℝ) * Real.pi / 180 = 0 by ring, Real.cos_zero]
  have h2b : Real.sin (1.2 * Real.pi / 180) ≤ 0.03 := by nlinarith
  have h3b : Real.sin (0.9 * Real.pi / 180) ≤ 0.02 := by nlinarith
  apply mul_lt_mul_of_pos_left ?_ (by norm_num : (0 : ℝ) < 6371000)
  apply haversine_angle_lt (by positivity) ?_ ?_
  · nlinarith [hmono, hs1pos, hs2pos,
      mul_nonneg hcos24 (mul_self_nonneg (Real.sin (0.9 * Real.pi / 180)))]
  · have h2sq : Real.sin (1.2 * Real.pi / 180) * Real.sin (1.2 * Real.pi / 180) ≤
        0.0009 := by
      have := mul_le_mul h2b h2b hs2pos.le (by norm_num : (0 : ℝ) ≤ 0.03)
      linarith
    have h3sq : Real.sin (0.9 * Real.pi / 180) * Real.sin (0.9 * Real.pi / 180) ≤
        0.0004 := by
      have := mul_le_mul h3b h3b hs3pos.le (by norm_num : (0 : ℝ) ≤ 0.02)
      linarith
    have hcs3 : Real.cos (2.4 * Real.pi / 180) *
        (Real.sin (0.9 * Real.pi / 180) * Real.sin (0.9 * Real.pi / 180)) ≤ 0.0004 :=
      le_trans (mul_le_of_le_one_left (mul_self_nonneg _) hcos24') h3sq
    nlinarith [h2sq, hcs3]

lemma legData_distance_eq (fp : FlightPlan) (i : ℕ) :
    (calculateLegData fp i).distance =
      haversineDistance (fp.points.getD i default).lat (fp.points.getD i default).lon
        (fp.points.getD (i + 1) default).lat (fp.points.getD (i + 1) default).lon /
        1852 := by
  cases i <;> rfl

/-- Counterexample to claim C7 as stated: on the worked 3-waypoint
route, the second leg's straightening point is (2.4, 0.8), but the
leg data's reported distance is the haversine distance from the ORIGIN
WAYPOINT (0,0) to the destination (0,-1) divided by 1852, which differs
from the haversine distance from the straightening point to the
destination divided by 1852. -/
theorem legDistance_straightening_cx :
    ((calculateAllLegData idProj idProj turnPlanExample)[1]?).map
      (fun r => ((r.straighteningLat, r.straighteningLon) : Option ℝ × Option ℝ)) =
      some (some 2.4, some 0.8) ∧
    (calculateLegData turnPlanExample 1).distance =
      haversineDistance 0 0 0 (-1) / 1852 ∧
    (calculateLegData turnPlanExample 1).distance ≠
      haversineDistance 2.4 0.8 0 (-1) / 1852 := by
  have hdist : (calculateLegData turnPlanExample 1).distance =
      haversineDistance 0 0 0 (-1) / 1852 := by
    rw [legData_distance_eq]
    simp [turnPlanExample]
  refine ⟨turnPlan_leg1_straightening, hdist, ?_⟩
  rw [hdist]
  intro h
  have := haversine_cx_lt
  have h2 : haversineDistance 0 0 0 (-1) = haversineDistance 2.4 0.8 0 (-1) := by
    have h1852 : (1852 : ℝ) ≠ 0 := by norm_num
    field_simp at h
    exact h
  linarith

/-- Claim C7 (corrected): for every flight plan and leg index, the leg
data's reported distance in nautical miles is the haversine great-circle
distance (Earth radius 6371000 m) from the leg's ORIGIN WAYPOINT — not
the straightening point — to the destination waypoint, divided by 1852,
and the time en route is `round(distanceNm / (groundSpeed / 3600))`
seconds with the ground speed of the origin's wind triangle. -/
theorem legDistance_formula (fp : FlightPlan) (i : ℕ) :
    (calculateLegData fp i).distance =
      haversineDistance (fp.points.getD i default).lat (fp.points.getD i default).lon
        (fp.points.getD (i + 1) default).lat (fp.points.getD (i + 1) default).lon /
        1852 ∧
    (calculateLegData fp i).ete = jsRound ((calculateLegData fp i).distance /
      (((fp.points.getD i default).tas + (fp.points.getD i default).windSpeed *
        Real.cos (jsMod (jsMod ((fp.points.getD i default).windDir + 180) 360 -
          (calculateLegData fp i).course + 360) 360 * (Real.pi / 180))) / 3600)) := by
  cases i <;> exact ⟨rfl, rfl⟩

/-- Witness for the corrected C5 at the same concrete turn. -/
theorem spTurnDirection_encoding_witness :
    ((⟨-1000, 0, -(2000 / 1000001), -(2000000 / 1000001), 1⟩ : SPResult).td =
      if 180 < jsMod (calculateBearing 0 0 0 (-1) - 0 + 360) 360 then 1 else -1) ∧
    ((⟨-1000, 0, -(2000 / 1000001), -(2000000 / 1000001), 1⟩ : SPResult).cLat,
      (⟨-1000, 0, -(2000 / 1000001), -(2000000 / 1000001), 1⟩ : SPResult).cLon) = idProj
      ((idProj 0 0).1 - 1 * Real.cos (0 * Real.pi / 180) * 1000)
      ((idProj 0 0).2 + 1 * Real.sin (0 * Real.pi / 180) * 1000) ∧
    (-(1 * Real.cos (0 * Real.pi / 180) * 1000)) * Real.sin (0 * Real.pi / 180) +
      (1 * Real.sin (0 * Real.pi / 180) * 1000) * Real.cos (0 * Real.pi / 180) = 0 ∧
    (-(1 * Real.cos (0 * Real.pi / 180) * 1000)) ^ 2 +
      (1 * Real.sin (0 * Real.pi / 180) * 1000) ^ 2 = 1000 ^ 2 :=
  spTurnDirection_encoding idProj idProj 0 0 0 0 (-1) 1000
    ⟨-1000, 0, -(2000 / 1000001), -(2000000 / 1000001), 1⟩
    straighteningPoint_scenarioA_eval

end
